import Mathlib

/-!
Shallow embedding of `rclone_sync.py` (bi-directional sync for rclone) and
proofs about the behaviours its specification describes.

Python integers are modelled as `Int` (or `Nat` where the quantity is a
count), Python strings as Lean `String`, `datetime.datetime` values as a
record of six numeric fields, Python dictionaries as association lists with
unique keys, and exceptions / `sys.exit` as explicit result constructors.
External effects (subprocess invocations, the filesystem) are supplied as
explicit oracle parameters.
-/

set_option autoImplicit false

namespace RcloneSync

/-- Model of `datetime.datetime` restricted to the second-level precision
used by `RCLONE_TIMESTAMP_FORMAT = "%Y-%m-%d %H:%M:%S"`. -/
structure DateTime where
  year : Nat
  month : Nat
  day : Nat
  hour : Nat
  minute : Nat
  second : Nat
  deriving DecidableEq, Repr

/-- `datetime.datetime.min`, the class-level default of
`FileAttributes.timestamp` (year 1, month 1, day 1, midnight). -/
def datetimeMin : DateTime := ⟨1, 1, 1, 0, 0, 0⟩

/-- The `FileAttributes` dataclass (`src/rclone_sync.py` lines 23-26).
`size: Optional[int] = None` is an annotated dataclass field;
`timestamp = datetime.datetime.min` carries NO type annotation, so in Python
it is a plain class attribute, not a dataclass field.  Instances still carry
a per-instance `timestamp` (assigned in `SyncFile.add_properties`), which is
what this record models. -/
structure FileAttributes where
  size : Option Int := none
  timestamp : DateTime := datetimeMin
  deriving DecidableEq, Repr

/-- The `__eq__` generated by `@dataclasses.dataclass` for `FileAttributes`:
it compares the tuple of dataclass *fields*, and the only field is `size`
(the unannotated `timestamp` is not a field), so two values compare equal
whenever their sizes are equal, whatever their timestamps. -/
def FileAttributes.pyEq (a b : FileAttributes) : Bool :=
  a.size == b.size

/-! ## Pair identifier: `get_paths_id` and the ordering step in `main` -/

/-- One step of UTF-8 encoding: the byte sequence of a single code point,
as produced by `str.encode()`. -/
def utf8EncodeCodepoint (c : Nat) : List Nat :=
  if c < 0x80 then [c]
  else if c < 0x800 then
    [0xC0 ||| (c >>> 6), 0x80 ||| (c &&& 0x3F)]
  else if c < 0x10000 then
    [0xE0 ||| (c >>> 12), 0x80 ||| ((c >>> 6) &&& 0x3F), 0x80 ||| (c &&& 0x3F)]
  else
    [0xF0 ||| (c >>> 18), 0x80 ||| ((c >>> 12) &&& 0x3F),
     0x80 ||| ((c >>> 6) &&& 0x3F), 0x80 ||| (c &&& 0x3F)]

/-- `str.encode()`: the UTF-8 bytes of a Python string. -/
def pyUtf8 (s : String) : List Nat :=
  (s.data.map fun c => utf8EncodeCodepoint c.toNat).flatten

/-- Truncation to a 32-bit word. -/
def w32 (x : Nat) : Nat := x % 4294967296

/-- 32-bit right rotation. -/
def rotr32 (x n : Nat) : Nat := w32 ((x >>> n) ||| (x <<< (32 - n)))

/-- SHA-256 `Ch` function; `¬x` is the 32-bit complement. -/
def shaCh (x y z : Nat) : Nat := (x &&& y) ^^^ ((4294967295 - x) &&& z)

/-- SHA-256 `Maj` function. -/
def shaMaj (x y z : Nat) : Nat := (x &&& y) ^^^ (x &&& z) ^^^ (y &&& z)

/-- SHA-256 big sigma 0. -/
def bigSigma0 (x : Nat) : Nat := rotr32 x 2 ^^^ rotr32 x 13 ^^^ rotr32 x 22

/-- SHA-256 big sigma 1. -/
def bigSigma1 (x : Nat) : Nat := rotr32 x 6 ^^^ rotr32 x 11 ^^^ rotr32 x 25

/-- SHA-256 small sigma 0. -/
def smallSigma0 (x : Nat) : Nat := rotr32 x 7 ^^^ rotr32 x 18 ^^^ (x >>> 3)

/-- SHA-256 small sigma 1. -/
def smallSigma1 (x : Nat) : Nat := rotr32 x 17 ^^^ rotr32 x 19 ^^^ (x >>> 10)

/-- The 64 SHA-256 round constants (FIPS 180-4, written in decimal). -/
def sha256K : List Nat :=
  [1116352408, 1899447441, 3049323471, 3921009573, 961987163, 1508970993,
   2453635748, 2870763221, 3624381080, 310598401, 607225278, 1426881987,
   1925078388, 2162078206, 2614888103, 3248222580, 3835390401, 4022224774,
   264347078, 604807628, 770255983, 1249150122, 1555081692, 1996064986,
   2554220882, 2821834349, 2952996808, 3210313671, 3336571891, 3584528711,
   113926993, 338241895, 666307205, 773529912, 1294757372, 1396182291,
   1695183700, 1986661051, 2177026350, 2456956037, 2730485921, 2820302411,
   3259730800, 3345764771, 3516065817, 3600352804, 4094571909, 275423344,
   430227734, 506948616, 659060556, 883997877, 958139571, 1322822218,
   1537002063, 1747873779, 1955562222, 2024104815, 2227730452, 2361852424,
   2428436474, 2756734187, 3204031479, 3329325298]

/-- Working state of one SHA-256 compression (also used for the 8-word hash
value). -/
structure Sha256State where
  a : Nat
  b : Nat
  c : Nat
  d : Nat
  e : Nat
  f : Nat
  g : Nat
  h : Nat
  deriving Repr

/-- The SHA-256 initial hash value (FIPS 180-4, written in decimal). -/
def sha256H0 : Sha256State :=
  ⟨1779033703, 3144134277, 1013904242, 2773480762,
   1359893119, 2600822924, 528734635, 1541459225⟩

/-- One SHA-256 compression round. -/
def sha256Round (s : Sha256State) (kw : Nat × Nat) : Sha256State :=
  let t1 := w32 (s.h + bigSigma1 s.e + shaCh s.e s.f s.g + kw.1 + kw.2)
  let t2 := w32 (bigSigma0 s.a + shaMaj s.a s.b s.c)
  ⟨w32 (t1 + t2), s.a, s.b, s.c, w32 (s.d + t1), s.e, s.f, s.g⟩

/-- Extend a message schedule by `n` further words. -/
def extendSchedule : List Nat → Nat → List Nat
  | ws, 0 => ws
  | ws, n + 1 =>
    let len := ws.length
    let nw := w32 (smallSigma1 (ws.getD (len - 2) 0) + ws.getD (len - 7) 0 +
                   smallSigma0 (ws.getD (len - 15) 0) + ws.getD (len - 16) 0)
    extendSchedule (ws ++ [nw]) n

/-- Group a byte list into big-endian 32-bit words. -/
def bytesToWords : List Nat → List Nat
  | b1 :: b2 :: b3 :: b4 :: rest =>
    (((b1 * 256 + b2) * 256 + b3) * 256 + b4) :: bytesToWords rest
  | _ => []

/-- The big-endian 8-byte encoding of a (64-bit) length. -/
def lengthBytes8 (n : Nat) : List Nat :=
  [(n >>> 56) % 256, (n >>> 48) % 256, (n >>> 40) % 256, (n >>> 32) % 256,
   (n >>> 24) % 256, (n >>> 16) % 256, (n >>> 8) % 256, n % 256]

/-- SHA-256 padding: append `0x80`, zero bytes up to 56 mod 64, then the
bit length as 8 big-endian bytes. -/
def sha256Pad (msg : List Nat) : List Nat :=
  let l := msg.length
  let zeros := (119 - l % 64) % 64
  msg ++ [128] ++ List.replicate zeros 0 ++ lengthBytes8 (8 * l)

/-- Process one 64-byte block. -/
def sha256Block (hs : Sha256State) (block : List Nat) : Sha256State :=
  let ws := extendSchedule (bytesToWords block) 48
  let s := (sha256K.zip ws).foldl sha256Round hs
  ⟨w32 (hs.a + s.a), w32 (hs.b + s.b), w32 (hs.c + s.c), w32 (hs.d + s.d),
   w32 (hs.e + s.e), w32 (hs.f + s.f), w32 (hs.g + s.g), w32 (hs.h + s.h)⟩

/-- Process a padded message 64 bytes at a time. -/
def sha256Blocks (hs : Sha256State) : List Nat → Sha256State
  | [] => hs
  | b :: bs => sha256Blocks (sha256Block hs ((b :: bs).take 64)) (bs.drop 63)
  termination_by bs => bs.length
  decreasing_by simp [List.length_drop]; omega

/-- One hexadecimal digit (lower case, as `hexdigest` produces). -/
def hexDigit (n : Nat) : Char :=
  if n < 10 then Char.ofNat (48 + n) else Char.ofNat (87 + n)

/-- The 8 hex digits of a 32-bit word, most significant first. -/
def wordToHex (x : Nat) : List Char :=
  [hexDigit ((x >>> 28) % 16), hexDigit ((x >>> 24) % 16),
   hexDigit ((x >>> 20) % 16), hexDigit ((x >>> 16) % 16),
   hexDigit ((x >>> 12) % 16), hexDigit ((x >>> 8) % 16),
   hexDigit ((x >>> 4) % 16), hexDigit (x % 16)]

/-- `hashlib.sha256(bytes).hexdigest()`. -/
def sha256Hexdigest (msg : List Nat) : String :=
  let s := sha256Blocks sha256H0 (sha256Pad msg)
  String.mk ([s.a, s.b, s.c, s.d, s.e, s.f, s.g, s.h].map wordToHex).flatten

/-- `get_paths_id` (lines 85-100): the hex SHA-256 digest of the
concatenation of the UTF-8 encodings of the two paths (two `update` calls
hash the concatenation of their arguments). -/
def get_paths_id (path_1 path_2 : String) : String :=
  sha256Hexdigest (pyUtf8 path_1 ++ pyUtf8 path_2)

/-- Python `>` on strings, on the underlying code-point lists:
lexicographic comparison of code points. -/
def charsGt : List Char → List Char → Bool
  | [], _ => false
  | _ :: _, [] => true
  | a :: as, b :: bs =>
    if b.toNat < a.toNat then true
    else if a.toNat < b.toNat then false
    else charsGt as bs

/-- Python `path_1_str > path_2_str` on strings. -/
def pyStrGt (a b : String) : Bool := charsGt a.data b.data

/-- A resolved endpoint as returned by `resolve_path`: either a
`pathlib.Path` holding an absolute local path, or the remote string. -/
inductive Endpoint where
  | localPath (s : String)
  | remote (s : String)
  deriving DecidableEq, Repr

/-- `str()` applied to a resolved endpoint (`main` lines 297-298):
`str(pathlib.Path(s)) = s` for the already-resolved string, and a remote is
already a string. -/
def Endpoint.toStr : Endpoint → String
  | .localPath s => s
  | .remote s => s

/-- The pair identifier as `main` computes it (lines 295-302): the two
endpoint strings are swapped into non-decreasing order before calling
`get_paths_id`. -/
def mainPairId (e1 e2 : Endpoint) : String :=
  let s1 := e1.toStr
  let s2 := e2.toStr
  if pyStrGt s1 s2 then get_paths_id s2 s1 else get_paths_id s1 s2

/-! ## Reconciliation engine (spec-modelled)

The reconciliation core does not exist in the source: `list_files` ends in
`raise NotImplementedError` (line 131) and so does `main` (line 322).  The
definitions in this section are therefore modelled from the specification's
decision table, not translated from code. -/

/-- Modelled from the spec: the spec's `FileAttributes` payload for a
present file — `size` (non-negative integer) and `modified_at` (second-level
timestamp).  An absent observation is `none` at the use sites. -/
structure SpecAttrs where
  size : Nat
  modifiedAt : DateTime
  deriving DecidableEq, Repr

/-- Modelled from the spec: the per-file sync actions of §1/§4.1. -/
inductive Action where
  | noop
  | copyAtoB
  | copyBtoA
  | deleteOnA
  | deleteOnB
  | conflict
  deriving DecidableEq, Repr

/-- Modelled from the spec: the §4.1 decision table, evaluated in priority
order, over the four per-path observations (`none` = absent).  Rules 5 and 6
of the table are subsumed by rules 3 and 4 respectively (with no baseline,
`cA == bA` iff `cA` is absent).  The residual case `cA == bA`, `cB == bB`,
`cA != cB` (a baseline inconsistent with the very listing that produced it)
is not reached by any of the spec's six rules; it is mapped to `conflict`,
the spec's catch-all for disagreement, and no claim depends on it. -/
def classify (cA cB bA bB : Option SpecAttrs) : Action :=
  if cA = cB then .noop
  else if cA = bA ∧ cB ≠ bB then (if cB = none then .deleteOnA else .copyBtoA)
  else if cB = bB ∧ cA ≠ bA then (if cA = none then .deleteOnB else .copyAtoB)
  else if cA ≠ bA ∧ cB ≠ bB then .conflict
  else .conflict

/-- Modelled from the spec: the engine classifies each path independently
over the four path→attributes maps (a map is a function to `Option`, `none`
meaning the path is absent from that observation set). -/
def reconcile (currentA currentB baselineA baselineB : String → Option SpecAttrs)
    (p : String) : Action :=
  classify (currentA p) (currentB p) (baselineA p) (baselineB p)

/-! ## Python exceptions, strings and number parsing -/

/-- The Python exceptions the embedded code can raise. -/
inductive PyExc where
  | assertionError
  | valueError
  | indexError
  | notImplementedError
  deriving DecidableEq, Repr

/-- Accumulate decimal digits; `none` on the first non-digit. -/
def digitsToNatAux : List Char → Nat → Option Nat
  | [], acc => some acc
  | c :: cs, acc =>
    if c.isDigit then digitsToNatAux cs (acc * 10 + (c.toNat - 48)) else none

/-- A non-empty all-digit character list as a number. -/
def digitsToNat : List Char → Option Nat
  | [] => none
  | c :: cs => digitsToNatAux (c :: cs) 0

/-- Python `int()`, restricted to an optional sign followed by decimal
digits — the only form the rclone `lsf` size field takes (the
whitespace/underscore forms `int()` also accepts are not modelled). -/
def pyInt (s : String) : Option Int :=
  match s.data with
  | '-' :: rest => (digitsToNat rest).map fun n => -(n : Int)
  | '+' :: rest => (digitsToNat rest).map fun n => (n : Int)
  | ds => (digitsToNat ds).map fun n => (n : Int)

/-- The numeric value of a digit character. -/
def digitVal (c : Char) : Nat := c.toNat - 48

/-- Gregorian leap year, as `datetime` validates dates. -/
def isLeapYear (y : Nat) : Bool :=
  y % 4 == 0 && (y % 100 != 0 || y % 400 == 0)

/-- Days in a month, as `datetime` validates dates. -/
def daysInMonth (y m : Nat) : Nat :=
  if m = 2 then (if isLeapYear y then 29 else 28)
  else if m ∈ ([4, 6, 9, 11] : List Nat) then 30
  else 31

/-- `datetime.datetime.strptime(s, "%Y-%m-%d %H:%M:%S")`, restricted to the
zero-padded fixed-width form rclone emits (strptime is also lenient about
digit widths; those non-padded forms are not modelled).  Range validation
(month, day-in-month including leap years, hour, minute, second) follows
the `datetime` constructor. -/
def strptimeRclone (s : String) : Option DateTime :=
  match s.data with
  | [a1, a2, a3, a4, q1, b1, b2, q2, e1, e2, q3, f1, f2, q4, g1, g2, q5, k1, k2] =>
    if (q1 = '-' ∧ q2 = '-' ∧ q3 = ' ' ∧ q4 = ':' ∧ q5 = ':') ∧
        ([a1, a2, a3, a4, b1, b2, e1, e2, f1, f2, g1, g2, k1, k2].all Char.isDigit = true) then
      let y := ((digitVal a1 * 10 + digitVal a2) * 10 + digitVal a3) * 10 + digitVal a4
      let mo := digitVal b1 * 10 + digitVal b2
      let d := digitVal e1 * 10 + digitVal e2
      let hh := digitVal f1 * 10 + digitVal f2
      let mi := digitVal g1 * 10 + digitVal g2
      let ss := digitVal k1 * 10 + digitVal k2
      if 1 ≤ y ∧ 1 ≤ mo ∧ mo ≤ 12 ∧ 1 ≤ d ∧ d ≤ daysInMonth y mo ∧
          hh ≤ 23 ∧ mi ≤ 59 ∧ ss ≤ 59 then
        some ⟨y, mo, d, hh, mi, ss⟩
      else none
    else none
  | _ => none

/-- Python whitespace as stripped by `str.rstrip()`
(space, tab, newline, carriage return, vertical tab, form feed). -/
def pyIsSpace (c : Char) : Bool :=
  c = ' ' || c = '\t' || c = '\n' || c = '\r' || c.toNat = 11 || c.toNat = 12

/-- `str.rstrip()`. -/
def pyRstrip (s : String) : String :=
  String.mk (s.data.reverse.dropWhile pyIsSpace).reverse

/-- `str.split("\n")` on the character list: note that splitting the empty
string yields one empty piece, exactly as in Python. -/
def splitNl : List Char → List (List Char)
  | [] => [[]]
  | c :: cs =>
    if c = '\n' then [] :: splitNl cs
    else
      match splitNl cs with
      | l :: ls => (c :: l) :: ls
      | [] => [[c]]

/-- The lines `parse_lsf` iterates over: `lsf_output.rstrip().split("\n")`
(line 179). -/
def pyLines (s : String) : List String :=
  (splitNl (pyRstrip s).data).map String.mk

/-- Split a character list at its LAST `;` into (before, after);
`none` when there is no `;`. -/
def splitLastSemi : List Char → Option (List Char × List Char)
  | [] => none
  | c :: rest =>
    match splitLastSemi rest with
    | some (b, a) => some (c :: b, a)
    | none => if c = ';' then some ([], rest) else none

/-- `f.rsplit(";", 2)` (line 180): at most two splits, taken from the
right, so a filename may itself contain semicolons.  Yields one, two or
three pieces. -/
def rsplit2 (s : String) : List String :=
  match splitLastSemi s.data with
  | none => [s]
  | some (b1, a1) =>
    match splitLastSemi b1 with
    | none => [String.mk b1, String.mk a1]
    | some (b2, a2) => [String.mk b2, String.mk a2, String.mk a1]

/-! ## SyncFile and the files dictionary -/

/-- The `SyncFile` class (lines 29-37): a path and four attribute slots,
each initialised to a fresh default `FileAttributes`. -/
structure SyncFile where
  path : String
  db_1 : FileAttributes := {}
  db_2 : FileAttributes := {}
  path_1 : FileAttributes := {}
  path_2 : FileAttributes := {}
  deriving DecidableEq, Repr

/-- `self.__getattribute__(type_)` on the four slot names. -/
def SyncFile.slotGet (f : SyncFile) (ty : String) : FileAttributes :=
  if ty = "db_1" then f.db_1
  else if ty = "db_2" then f.db_2
  else if ty = "path_1" then f.path_1
  else f.path_2

/-- Writing back through the attribute named by `ty` (only reached for the
four asserted slot names; the catch-all case is the remaining `"path_2"`). -/
def SyncFile.slotSet (f : SyncFile) (ty : String) (a : FileAttributes) : SyncFile :=
  if ty = "db_1" then { f with db_1 := a }
  else if ty = "db_2" then { f with db_2 := a }
  else if ty = "path_1" then { f with path_1 := a }
  else { f with path_2 := a }

/-- `SyncFile.add_properties` (lines 39-43): assert the slot name, then
`int(size)` (ValueError on failure), then `strptime(timestamp, ...)`
(ValueError on failure), storing both into the named slot. -/
def SyncFile.add_properties (f : SyncFile) (ty sizeStr tsStr : String) :
    Except PyExc SyncFile :=
  if ty ∈ (["db_1", "db_2", "path_1", "path_2"] : List String) then
    match pyInt sizeStr with
    | none => .error .valueError
    | some n =>
      match strptimeRclone tsStr with
      | none => .error .valueError
      | some ts => .ok (f.slotSet ty ⟨some n, ts⟩)
  else .error .assertionError

/-- The `files` dictionary: an insertion-ordered association list with
unique keys, as a Python `dict` from path to `SyncFile`. -/
abbrev Dict := List (String × SyncFile)

/-- `files[key]` lookup (`None`-valued on `KeyError`). -/
def dictFind : Dict → String → Option SyncFile
  | [], _ => none
  | (k, v) :: rest, p => if k = p then some v else dictFind rest p

/-- `files[key] = value`: replace in place when the key exists, else append
(Python dicts keep insertion order). -/
def dictSet : Dict → String → SyncFile → Dict
  | [], p, f => [(p, f)]
  | (k, v) :: rest, p, f =>
    if k = p then (k, f) :: rest else (k, v) :: dictSet rest p f

/-- The keys of the files dictionary, in insertion order. -/
def dictKeys (d : Dict) : List String := d.map Prod.fst

/-- The path field of one lsf line: `f.rsplit(";", 2)[0]` (`rsplit2` always
yields at least one piece, so the `[]` default is unreachable). -/
def linePath (l : String) : String :=
  match rsplit2 l with
  | p :: _ => p
  | [] => l

/-- A well-formed lsf line, as `rclone lsf --format pts` emits one: three
rsplit pieces whose size parses as an integer and whose timestamp parses in
the rclone timestamp format. -/
def goodLine (l : String) : Bool :=
  match rsplit2 l with
  | [_, ts, sz] => (pyInt sz).isSome && (strptimeRclone ts).isSome
  | _ => false

/-- The relative paths appearing in one side's listing output, line by
line. -/
def lsfPaths (out : String) : List String := (pyLines out).map linePath

/-- The body of `parse_lsf`'s loop for one line `f` (lines 179-188):
`f_split = f.rsplit(";", 2)`; fetch or create `files[f_split[0]]`; then
`add_properties(type_, f_split[2], f_split[1])`.  With fewer than three
pieces, evaluating the argument `f_split[2]` raises IndexError (the freshly
created entry Python had already inserted is unobservable because the
exception aborts the run). -/
def parse_lsf_line (ty : String) (files : Dict) (f : String) : Except PyExc Dict :=
  match rsplit2 f with
  | [p, ts, sz] =>
    let fobj := match dictFind files p with
      | some o => o
      | none => { path := p }
    (fobj.add_properties ty sz ts).map fun fobj2 => dictSet files p fobj2
  | _ => .error .indexError

/-- The loop of `parse_lsf` over a ready-split line list. -/
def parseLines (ty : String) : List String → Dict → Except PyExc Dict
  | [], files => .ok files
  | l :: ls, files =>
    match parse_lsf_line ty files l with
    | .error e => .error e
    | .ok files2 => parseLines ty ls files2

/-- `parse_lsf` (lines 171-188). -/
def parse_lsf (lsfOutput ty : String) (files : Dict) : Except PyExc Dict :=
  parseLines ty (pyLines lsfOutput) files

/-- The two `parse_lsf` calls `list_files` performs (lines 118-128): side 1
into the empty dictionary, then side 2 into the result. -/
def parseBoth (out1 out2 : String) : Except PyExc Dict :=
  match parse_lsf out1 "path_1" [] with
  | .error e => .error e
  | .ok d1 => parse_lsf out2 "path_2" d1

/-! ## The listing retry wrapper -/

/-- Result of `list_files_in_path`, with two observables the claims speak
about: the number of listing-command invocations made and the number of
per-attempt error reports printed. -/
inductive LfipResult where
  | ok (files : Dict) (attempts errorsPrinted : Nat)
  | exit (code : Int) (attempts errorsPrinted : Nat)
  | exc (e : PyExc) (attempts errorsPrinted : Nat)
  deriving DecidableEq, Repr

/-- The `for i in range(retries)` loop of `list_files_in_path`
(lines 147-155).  The oracle `run i` models the `subprocess.run` of attempt
`i`: `none` is a non-zero returncode (whose stderr is printed as the
per-attempt error report), `some out` is returncode 0 with stdout `out`,
which is then parsed into `files` and the function returns `True`. -/
def lfipLoop (run : Nat → Option String) (pathNumber : Int) (files : Dict) :
    Nat → Nat → Nat → LfipResult
  | i, 0, errs => .exit (3 + pathNumber) i errs
  | i, fuel + 1, errs =>
    match run i with
    | some stdout =>
      match parse_lsf stdout ("path_" ++ toString pathNumber) files with
      | .ok files2 => .ok files2 (i + 1) errs
      | .error e => .exc e (i + 1) errs
    | none => lfipLoop run pathNumber files (i + 1) fuel (errs + 1)

/-- `list_files_in_path` (lines 135-155): `range(retries)` is empty when
`retries <= 0` (hence the `Int.toNat` fuel), and exhausting it falls
through to `sys.exit(3 + path_number)`. -/
def list_files_in_path (run : Nat → Option String) (pathNumber : Int)
    (files : Dict) (retries : Int) : LfipResult :=
  lfipLoop run pathNumber files 0 retries.toNat 0

/-! ## Path resolution -/

/-- The external collaborators `resolve_path` consults: the configured
remote names (`rclone listremotes`), `Path.expanduser().resolve(strict=False)`
(which canonicalises a local path to an absolute one), and the success of
the two directory-creating effects (`Path.mkdir` for a local path, `rclone
mkdir` for a remote one). -/
structure Env where
  remotes : List String
  resolveAbs : String → String
  localMkdirOk : String → Bool
  remoteMkdirOk : String → Bool

/-- Split a character list at its FIRST `:` into (before, after);
`none` when there is no `:`. -/
def splitFirstColon : List Char → Option (List Char × List Char)
  | [] => none
  | c :: cs =>
    if c = ':' then some ([], cs)
    else (splitFirstColon cs).map fun p => (c :: p.1, p.2)

/-- `path.split(":", 1)`: the part before the first colon, and the rest
when a colon exists (`len(path_split) == 1` corresponds to `none`). -/
def pySplitColon1 (s : String) : String × Option String :=
  match splitFirstColon s.data with
  | none => (s, none)
  | some (a, b) => (String.mk a, some (String.mk b))

/-- `"/" in path_split[0]`. -/
def hasSlash (s : String) : Bool := s.data.any fun c => c = '/'

/-- The `pathlib.Path` branch of `resolve_path` (lines 229-237):
expanduser+resolve to an absolute path, `mkdir(exist_ok=True, parents=True)`,
`None` on `OSError`. -/
def resolveLocal (env : Env) (path : String) : Option Endpoint :=
  let abs := env.resolveAbs path
  if env.localMkdirOk abs then some (.localPath abs) else none

/-- `resolve_path` (lines 192-239) on a string argument: empty paths are
rejected; a path whose pre-colon part contains `/` (or that has no colon)
is local; a known remote name leads to `rclone mkdir` and the remote string
itself as the endpoint; an unknown remote name (including the path `":"`)
is rejected. -/
def resolve_path (env : Env) (path : String) : Option Endpoint :=
  if path = "" then none
  else
    match (pySplitColon1 path).2 with
    | none => resolveLocal env path
    | some _ =>
      let head := (pySplitColon1 path).1
      if hasSlash head then resolveLocal env path
      else if head ∈ env.remotes then
        (if env.remoteMkdirOk path then some (.remote path) else none)
      else none

/-- `resolve_paths` (lines 242-266): `sys.exit(1)` / `sys.exit(2)` when a
side fails to resolve (`resolve_path` never returns a falsy non-`None`
value: remote strings contain a colon, and resolved `Path`s are non-empty),
`sys.exit(3)` when the two resolved endpoints compare equal (a `Path` never
equals a `str`), otherwise both endpoints unchanged. -/
def resolve_paths (env : Env) (p1 p2 : String) : Except Int (Endpoint × Endpoint) :=
  match resolve_path env p1 with
  | none => .error 1
  | some a =>
    match resolve_path env p2 with
    | none => .error 2
    | some b => if a = b then .error 3 else .ok (a, b)

/-! ## The run-level model of `main` -/

/-- How a run of `main` ends: `sys.exit(code)` or an uncaught exception
(there is no normal return — `main` ends in `raise NotImplementedError`). -/
inductive RunEnd where
  | exit (code : Int)
  | exc (e : PyExc)
  deriving DecidableEq, Repr

/-- The state of `main` at the moment the interpreter starts terminating:
how it ended, whether this run created the lock file, whether it reached
the listing phase (`list_files` was invoked), whether the lock file exists
on disk at that moment, and the `atexit` handlers registered so far
(each a filesystem transformer on the lock-file-exists bit). -/
structure MainPre where
  ending : RunEnd
  lockAcquired : Bool
  listingPhase : Bool
  lockFile : Bool
  atexitHandlers : List (Bool → Bool)

/-- The observable trace of a finished run. -/
structure MainTrace where
  ending : RunEnd
  lockAcquired : Bool
  listingPhase : Bool
  lockFileAtEnd : Bool
  deriving DecidableEq, Repr

/-- Interpreter termination: `atexit` handlers run on every termination
path — normal completion, `sys.exit` (which raises `SystemExit`), and an
uncaught exception — so every `MainPre`, whatever its `ending`, flows
through here.  (`atexit` would be skipped only by `os._exit` or a signal,
neither of which the program uses.) -/
def pythonExit (pre : MainPre) : MainTrace :=
  ⟨pre.ending, pre.lockAcquired, pre.listingPhase,
   pre.atexitHandlers.foldl (fun st h => h st) pre.lockFile⟩

/-- The body of `main` (lines 269-322) from the config check onward.
`cfgExit` is the outcome of `check_rclone_config` (`some c` = it called
`sys.exit(c)`); `lockExists` is whether this pair's lock file already
exists when `lock_file.touch(exist_ok=False)` runs (`touch` is atomic:
it either creates the file or raises `FileExistsError`); `workingDirOk`
is whether `list_files`' working-directory `mkdir` succeeds (else exit 24);
`run1`/`run2` are the listing oracles for the two `list_files_in_path`
calls; `retries` is the effective retries value.  On successful `touch`,
`atexit.register(delete_lock_file, lock_file)` (line 314) registers the
handler that unlinks the lock file.  The pair-identifier hashing and path
ordering (lines 295-302, modelled by `mainPairId`) only choose WHICH lock
file `lockExists` refers to, so they do not appear in the trace. -/
def runMainBody (env : Env) (p1 p2 : String) (cfgExit : Option Int)
    (lockExists workingDirOk : Bool) (run1 run2 : Nat → Option String)
    (retries : Int) : MainPre :=
  match cfgExit with
  | some c => ⟨.exit c, false, false, lockExists, []⟩
  | none =>
    match resolve_paths env p1 p2 with
    | .error c => ⟨.exit c, false, false, lockExists, []⟩
    | .ok _ =>
      if lockExists then ⟨.exit 23, false, false, true, []⟩
      else
        let handlers : List (Bool → Bool) := [fun _ => false]
        if workingDirOk then
          match list_files_in_path run1 1 [] retries with
          | .ok d1 _ _ =>
            match list_files_in_path run2 2 d1 retries with
            | .ok _ _ _ => ⟨.exc .notImplementedError, true, true, true, handlers⟩
            | .exit c _ _ => ⟨.exit c, true, true, true, handlers⟩
            | .exc e _ _ => ⟨.exc e, true, true, true, handlers⟩
          | .exit c _ _ => ⟨.exit c, true, true, true, handlers⟩
          | .exc e _ _ => ⟨.exc e, true, true, true, handlers⟩
        else ⟨.exit 24, true, true, true, handlers⟩

/-- A full run of `main` from the config check onward, through interpreter
termination. -/
def mainModel (env : Env) (p1 p2 : String) (cfgExit : Option Int)
    (lockExists workingDirOk : Bool) (run1 run2 : Nat → Option String)
    (retries : Int) : MainTrace :=
  pythonExit (runMainBody env p1 p2 cfgExit lockExists workingDirOk run1 run2 retries)

/-! ## Concrete environments used by witnesses -/

/-- A concrete resolver environment: one remote `r`, identity
canonicalisation, all directory creations succeed. -/
def envW : Env := ⟨["r"], id, fun _ => true, fun _ => true⟩

/-- A concrete resolver environment whose local `mkdir` always fails. -/
def envB : Env := ⟨["r"], id, fun _ => false, fun _ => true⟩

/-! # Theorems -/

/-- Claim C1: the spec says two `FileAttributes` are equal iff the present
flags match and, when present, size AND `modified_at` match exactly; in
particular equal sizes with different timestamps must compare unequal.  The
code violates this: `timestamp` lacks a type annotation, so it is not a
dataclass field and the generated `__eq__` compares only `size`.  At the
failing input — two attributes of size 10 whose timestamps differ by a
year — the code's equality returns `True`. -/
theorem claim_C1_equality_ignores_timestamp_at_failing_input :
    FileAttributes.pyEq ⟨some 10, ⟨2020, 1, 1, 0, 0, 0⟩⟩ ⟨some 10, ⟨2021, 1, 1, 0, 0, 0⟩⟩ = true
      ∧ (⟨2020, 1, 1, 0, 0, 0⟩ : DateTime) ≠ ⟨2021, 1, 1, 0, 0, 0⟩ := by
  exact ⟨rfl, by decide⟩

/-- Python string `>` is asymmetric. -/
theorem charsGt_asymm (as : List Char) :
    ∀ bs, charsGt as bs = true → charsGt bs as = false := by
  induction as with
  | nil => intro bs ht; simp [charsGt] at ht
  | cons a as ih =>
    intro bs ht
    cases bs with
    | nil => simp [charsGt] at ht ⊢
    | cons b bs =>
      unfold charsGt at ht ⊢
      rcases Nat.lt_trichotomy a.toNat b.toNat with hab | hab | hab
      · rw [if_neg (by omega), if_pos hab] at ht
        exact absurd ht (by simp)
      · have hcc : a = b := Char.eq_of_val_eq (UInt32.ext hab)
        subst hcc
        rw [if_neg (by omega), if_neg (by omega)] at ht ⊢
        exact ih bs ht
      · rw [if_neg (by omega), if_pos hab]

/-- Two Python strings neither of which is `>` the other are equal. -/
theorem charsGt_antisymm (as : List Char) :
    ∀ bs, charsGt as bs = false → charsGt bs as = false → as = bs := by
  induction as with
  | nil =>
    intro bs h1 h2
    cases bs with
    | nil => rfl
    | cons b bs => simp [charsGt] at h2
  | cons a as ih =>
    intro bs h1 h2
    cases bs with
    | nil => simp [charsGt] at h1
    | cons b bs =>
      unfold charsGt at h1 h2
      rcases Nat.lt_trichotomy a.toNat b.toNat with hab | hab | hab
      · rw [if_pos hab] at h2
        exact absurd h2 (by simp)
      · have hcc : a = b := Char.eq_of_val_eq (UInt32.ext hab)
        subst hcc
        rw [if_neg (by omega), if_neg (by omega)] at h1
        rw [ih bs h1 (by rw [if_neg (by omega), if_neg (by omega)] at h2; exact h2)]
      · rw [if_pos hab] at h1
        exact absurd h1 (by simp)

/-- Claim C2: the pair identifier the program computes is symmetric in its
two endpoints: `main` places the two endpoint strings in a fixed
deterministic (lexicographic) order before hashing them, so swapping the
arguments never changes the identifier. -/
theorem claim_C2_pair_identifier_symmetric (e1 e2 : Endpoint) :
    mainPairId e1 e2 = mainPairId e2 e1 := by
  unfold mainPairId pyStrGt
  rcases h1 : charsGt e1.toStr.data e2.toStr.data with _ | _
  · rcases h2 : charsGt e2.toStr.data e1.toStr.data with _ | _
    · have hss : e1.toStr = e2.toStr :=
        String.ext (charsGt_antisymm _ _ h1 h2)
      simp [hss]
    · simp [h1, h2]
  · have h2 : charsGt e2.toStr.data e1.toStr.data = false := charsGt_asymm _ _ h1
    simp [h1, h2]

/-- Claim C3: for every path in the union of the four input maps, if the
current attributes on the two sides agree (including both absent), the
reconciliation engine assigns the no-op action, whatever the baselines are.
The engine is spec-modelled: the source's reconciliation core is
`raise NotImplementedError`. -/
theorem claim_C3_current_agreement_is_noop
    (currentA currentB baselineA baselineB : String → Option SpecAttrs) (p : String)
    (_hmem : (currentA p).isSome ∨ (currentB p).isSome ∨
      (baselineA p).isSome ∨ (baselineB p).isSome)
    (h : currentA p = currentB p) :
    reconcile currentA currentB baselineA baselineB p = .noop := by
  simp [reconcile, classify, h]

/-- Witness for C3 at a concrete input: both sides currently hold the same
file while the baselines disagree with it. -/
theorem claim_C3_current_agreement_is_noop_witness :
    reconcile (fun _ => some ⟨10, datetimeMin⟩) (fun _ => some ⟨10, datetimeMin⟩)
      (fun _ => none) (fun _ => some ⟨3, datetimeMin⟩) "f.txt" = .noop :=
  claim_C3_current_agreement_is_noop _ _ _ _ "f.txt" (Or.inl rfl) rfl

/-- Claim C4: the claim says the retry wrapper returns successfully as soon
as one listing attempt succeeds.  At the failing input — a single attempt
that succeeds (returncode 0) with empty stdout, exactly what the listing
tool produces for a path containing zero files — the code instead raises an
uncaught IndexError inside `parse_lsf` (the empty output splits into one
empty line and `f_split[2]` is out of range), crashing the run. -/
theorem claim_C4_successful_empty_listing_crashes_at_failing_input :
    list_files_in_path (fun _ => some "") 1 [] 1 = .exc .indexError 1 0 := rfl

/-- Claim C10: for every retries value at most 0, `list_files_in_path`
makes zero listing attempts, prints no per-attempt error, and immediately
exits with code `3 + path_number`. -/
theorem claim_C10_nonpositive_retries_exit_without_attempt
    (run : Nat → Option String) (files : Dict) (pathNumber retries : Int)
    (h : retries ≤ 0) :
    list_files_in_path run pathNumber files retries = .exit (3 + pathNumber) 0 0 := by
  unfold list_files_in_path
  rw [Int.toNat_of_nonpos h]
  rfl

/-- Witness for C10 at retries = -2 on side 1 (exit code 4). -/
theorem claim_C10_nonpositive_retries_exit_without_attempt_witness :
    list_files_in_path (fun _ => some "x") 1 [] (-2) = .exit 4 0 0 := by
  have h := claim_C10_nonpositive_retries_exit_without_attempt
    (fun _ => some "x") [] 1 (-2) (by norm_num)
  simpa using h

/-- Claim C5: lock acquisition is exclusive and non-blocking.  If the
pair's lock file already exists when a run (that passed the config check
and path resolution) reaches `lock_file.touch(exist_ok=False)`, the atomic
create raises `FileExistsError` at once and the run exits with the distinct
code 23, without acquiring the lock and without ever invoking the listing
phase; the pre-existing lock file (the other run's) is left in place. -/
theorem claim_C5_existing_lock_exits_23_before_listing
    (env : Env) (p1 p2 : String) (workingDirOk : Bool)
    (run1 run2 : Nat → Option String) (retries : Int) (a b : Endpoint)
    (hres : resolve_paths env p1 p2 = .ok (a, b)) :
    mainModel env p1 p2 none true workingDirOk run1 run2 retries =
      ⟨.exit 23, false, false, true⟩ := by
  unfold mainModel runMainBody
  rw [hres]
  rfl

/-- Witness for C5: a concrete contended run. -/
theorem claim_C5_existing_lock_exits_23_before_listing_witness :
    mainModel envW "r:x" "r:y" none true true (fun _ => none) (fun _ => none) 1 =
      ⟨.exit 23, false, false, true⟩ :=
  claim_C5_existing_lock_exits_23_before_listing envW "r:x" "r:y" true
    (fun _ => none) (fun _ => none) 1 (.remote "r:x") (.remote "r:y") rfl

/-- Claim C6: whenever a run has created its lock file, the lock file is
gone when the run terminates, on every termination path the program has —
`sys.exit` and uncaught exceptions included — because `delete_lock_file`
is registered with `atexit` immediately after the successful `touch` and
`atexit` handlers run on every interpreter termination. -/
theorem claim_C6_lock_released_on_every_termination_path
    (env : Env) (p1 p2 : String) (cfgExit : Option Int)
    (lockExists workingDirOk : Bool) (run1 run2 : Nat → Option String) (retries : Int)
    (h : (mainModel env p1 p2 cfgExit lockExists workingDirOk run1 run2 retries).lockAcquired
      = true) :
    (mainModel env p1 p2 cfgExit lockExists workingDirOk run1 run2 retries).lockFileAtEnd
      = false := by
  unfold mainModel runMainBody pythonExit at h ⊢
  rcases cfgExit with _ | c
  · rcases hr : resolve_paths env p1 p2 with c | ab <;>
      simp only [hr] at h ⊢
    · simp at h
    · rcases lockExists
      · rcases workingDirOk
        · simp
        · rcases hl1 : list_files_in_path run1 1 [] retries with
            ⟨d1, n1, e1⟩ | ⟨c1, n1, e1⟩ | ⟨x1, n1, e1⟩ <;>
            simp only [hl1] at h ⊢
          · rcases hl2 : list_files_in_path run2 2 d1 retries with
              ⟨d2, n2, e2⟩ | ⟨c2, n2, e2⟩ | ⟨x2, n2, e2⟩ <;>
              simp only [hl2] at h ⊢ <;> simp
          · simp
          · simp
      · simp at h
  · simp at h

/-- Witness for C6: a concrete run that acquires the lock and then dies on
the listing-failure exit; the lock file is gone at the end. -/
theorem claim_C6_lock_released_on_every_termination_path_witness :
    (mainModel envW "r:x" "r:y" none false true
      (fun _ => none) (fun _ => none) 1).lockFileAtEnd = false :=
  claim_C6_lock_released_on_every_termination_path envW "r:x" "r:y" none false true
    (fun _ => none) (fun _ => none) 1 rfl

/-- Claim C8: the path resolver rejects the empty string, a remote-form
path (colon present, no slash before it) whose remote name is not
configured, and a local-form path whose directory creation fails; every
accepted input yields a canonical endpoint — the remote string itself, or
the canonicalised absolute local path. -/
theorem claim_C8_resolver_rejections_and_acceptance (env : Env) (p : String) :
    (p = "" → resolve_path env p = none)
    ∧ (∀ h t, pySplitColon1 p = (h, some t) → hasSlash h = false →
        h ∉ env.remotes → resolve_path env p = none)
    ∧ (((pySplitColon1 p).2 = none ∨ hasSlash (pySplitColon1 p).1 = true) →
        env.localMkdirOk (env.resolveAbs p) = false → resolve_path env p = none)
    ∧ (∀ e, resolve_path env p = some e →
        e = .remote p ∨ e = .localPath (env.resolveAbs p)) := by
  refine ⟨?_, ?_, ?_, ?_⟩
  · intro hp
    simp [resolve_path, hp]
  · intro h t hsplit hslash hmem
    by_cases hp : p = ""
    · simp [resolve_path, hp]
    · simp [resolve_path, hp, hsplit, hslash, hmem]
  · intro hform hmk
    by_cases hp : p = ""
    · simp [resolve_path, hp]
    · rcases hsp : (pySplitColon1 p).2 with _ | t
      · simp [resolve_path, resolveLocal, hp, hsp, hmk]
      · rcases hform with hnone | hslash
        · rw [hsp] at hnone
          exact absurd hnone (by simp)
        · simp [resolve_path, resolveLocal, hp, hsp, hslash, hmk]
  · intro e he
    by_cases hp : p = ""
    · simp [resolve_path, hp] at he
    · rcases hsp : (pySplitColon1 p).2 with _ | t
      · simp [resolve_path, resolveLocal, hp, hsp] at he
        right
        rcases he with ⟨_, he2⟩
        exact he2.symm
      · by_cases hslash : hasSlash (pySplitColon1 p).1
        · simp [resolve_path, resolveLocal, hp, hsp, hslash] at he
          right
          rcases he with ⟨_, he2⟩
          exact he2.symm
        · by_cases hmem : (pySplitColon1 p).1 ∈ env.remotes
          · simp [resolve_path, hp, hsp, hslash, hmem] at he
            left
            rcases he with ⟨_, he2⟩
            exact he2.symm
          · simp [resolve_path, hp, hsp, hslash, hmem] at he

/-- Witness for C8: the three rejection modes at concrete inputs. -/
theorem claim_C8_resolver_rejections_and_acceptance_witness :
    resolve_path envW "" = none
    ∧ resolve_path envW "nope:x" = none
    ∧ resolve_path envB "some/dir" = none :=
  ⟨(claim_C8_resolver_rejections_and_acceptance envW "").1 rfl,
   (claim_C8_resolver_rejections_and_acceptance envW "nope:x").2.1
     "nope" "x" rfl rfl (by decide),
   (claim_C8_resolver_rejections_and_acceptance envB "some/dir").2.2.1
     (Or.inl rfl) rfl⟩

/-- Claim C9: when the two user-supplied paths resolve to the same
canonical endpoint, the run exits with code 3 before any lock is acquired
and before the listing phase; when they resolve to distinct endpoints,
`resolve_paths` returns both resolved identifiers unchanged. -/
theorem claim_C9_identical_endpoints_exit_3_before_lock
    (env : Env) (p1 p2 : String) (a b : Endpoint)
    (h1 : resolve_path env p1 = some a) (h2 : resolve_path env p2 = some b) :
    (a = b → ∀ (lockExists workingDirOk : Bool) (run1 run2 : Nat → Option String)
        (retries : Int),
        mainModel env p1 p2 none lockExists workingDirOk run1 run2 retries =
          ⟨.exit 3, false, false, lockExists⟩)
    ∧ (a ≠ b → resolve_paths env p1 p2 = .ok (a, b)) := by
  constructor
  · intro hab lockExists workingDirOk run1 run2 retries
    subst hab
    unfold mainModel runMainBody
    have hres : resolve_paths env p1 p2 = .error 3 := by
      simp [resolve_paths, h1, h2]
    rw [hres]
    rfl
  · intro hab
    simp [resolve_paths, h1, h2, hab]

/-- Witness for C9: both arguments resolve to the same remote endpoint;
the run exits 3 with no lock acquired and no listing. -/
theorem claim_C9_identical_endpoints_exit_3_before_lock_witness :
    mainModel envW "r:x" "r:x" none false true
      (fun _ => none) (fun _ => none) 1 = ⟨.exit 3, false, false, false⟩ :=
  (claim_C9_identical_endpoints_exit_3_before_lock envW "r:x" "r:x"
    (.remote "r:x") (.remote "r:x") rfl rfl).1 rfl false true
    (fun _ => none) (fun _ => none) 1

/-- Looking up the key just set returns the value just set. -/
theorem dictFind_dictSet_self (d : Dict) (p : String) (f : SyncFile) :
    dictFind (dictSet d p f) p = some f := by
  induction d with
  | nil => simp [dictSet, dictFind]
  | cons kv rest ih =>
    obtain ⟨k, v⟩ := kv
    by_cases h : k = p
    · simp [dictSet, dictFind, h]
    · simp [dictSet, dictFind, h, ih]

/-- Setting one key leaves lookups of other keys unchanged. -/
theorem dictFind_dictSet_ne (d : Dict) (p q : String) (f : SyncFile)
    (h : q ≠ p) : dictFind (dictSet d p f) q = dictFind d q := by
  induction d with
  | nil =>
    simp [dictSet, dictFind]
    exact Ne.symm h
  | cons kv rest ih =>
    obtain ⟨k, v⟩ := kv
    by_cases hk : k = p
    · subst hk
      simp [dictSet, dictFind, Ne.symm h]
    · rw [show dictSet ((k, v) :: rest) p f = (k, v) :: dictSet rest p f by
        simp [dictSet, hk]]
      by_cases hq : k = q
      · simp [dictFind, hq]
      · simp [dictFind, hq, ih]

/-- The keys after a set are the old keys plus possibly the new key. -/
theorem mem_dictKeys_dictSet (d : Dict) (p q : String) (f : SyncFile) :
    q ∈ dictKeys (dictSet d p f) ↔ q ∈ dictKeys d ∨ q = p := by
  induction d with
  | nil => simp [dictSet, dictKeys]
  | cons kv rest ih =>
    obtain ⟨k, v⟩ := kv
    by_cases hk : k = p
    · subst hk
      rw [show dictSet ((k, v) :: rest) k f = (k, f) :: rest by simp [dictSet],
        show dictKeys ((k, f) :: rest) = k :: dictKeys rest from rfl,
        show dictKeys ((k, v) :: rest) = k :: dictKeys rest from rfl]
      simp only [List.mem_cons]
      tauto
    · rw [show dictSet ((k, v) :: rest) p f = (k, v) :: dictSet rest p f by
          simp [dictSet, hk],
        show dictKeys ((k, v) :: dictSet rest p f) = k :: dictKeys (dictSet rest p f)
          from rfl,
        show dictKeys ((k, v) :: rest) = k :: dictKeys rest from rfl]
      simp only [List.mem_cons, ih]
      tauto

/-- Setting a key preserves key uniqueness. -/
theorem nodup_dictKeys_dictSet (d : Dict) (p : String) (f : SyncFile)
    (h : (dictKeys d).Nodup) : (dictKeys (dictSet d p f)).Nodup := by
  induction d with
  | nil => simp [dictSet, dictKeys]
  | cons kv rest ih =>
    obtain ⟨k, v⟩ := kv
    rw [show dictKeys ((k, v) :: rest) = k :: dictKeys rest from rfl,
      List.nodup_cons] at h
    obtain ⟨hk1, hk2⟩ := h
    by_cases hk : k = p
    · rw [show dictSet ((k, v) :: rest) p f = (k, f) :: rest by simp [dictSet, hk],
        show dictKeys ((k, f) :: rest) = k :: dictKeys rest from rfl, List.nodup_cons]
      exact ⟨hk1, hk2⟩
    · rw [show dictSet ((k, v) :: rest) p f = (k, v) :: dictSet rest p f by
          simp [dictSet, hk],
        show dictKeys ((k, v) :: dictSet rest p f) = k :: dictKeys (dictSet rest p f)
          from rfl, List.nodup_cons]
      refine ⟨fun hmem => ?_, ih hk2⟩
      rcases (mem_dictKeys_dictSet rest p k f).1 hmem with hin | hin
      · exact hk1 hin
      · exact hk hin

/-- Reading back the slot just written. -/
theorem slotGet_slotSet_self (f : SyncFile) (a : FileAttributes) (ty : String)
    (hty : ty = "path_1" ∨ ty = "path_2") :
    (f.slotSet ty a).slotGet ty = a := by
  rcases hty with rfl | rfl <;> rfl

/-- Writing one listing slot leaves the other listing slot unchanged. -/
theorem slotGet_slotSet_other (f : SyncFile) (a : FileAttributes) (ty ty2 : String)
    (hty : ty = "path_1" ∨ ty = "path_2") (hty2 : ty2 = "path_1" ∨ ty2 = "path_2")
    (hne : ty2 ≠ ty) :
    (f.slotSet ty a).slotGet ty2 = f.slotGet ty2 := by
  rcases hty with rfl | rfl <;> rcases hty2 with rfl | rfl
  · exact absurd rfl hne
  · rfl
  · rfl
  · exact absurd rfl hne

/-- A well-formed line decomposes into path, timestamp and size pieces
that parse. -/
theorem goodLine_elim (l : String) (h : goodLine l = true) :
    ∃ p ts sz n t, rsplit2 l = [p, ts, sz] ∧ pyInt sz = some n ∧
      strptimeRclone ts = some t ∧ linePath l = p := by
  unfold goodLine at h
  rcases hr : rsplit2 l with _ | ⟨p, tl⟩ <;> rw [hr] at h
  · simp at h
  · rcases tl with _ | ⟨ts, tl2⟩
    · simp at h
    · rcases tl2 with _ | ⟨sz, tl3⟩
      · simp at h
      · rcases tl3 with _ | ⟨x, tl4⟩
        · simp at h
          obtain ⟨n, hn⟩ := Option.isSome_iff_exists.1 h.1
          obtain ⟨t, ht⟩ := Option.isSome_iff_exists.1 h.2
          exact ⟨p, ts, sz, n, t, rfl, hn, ht, by unfold linePath; rw [hr]⟩
        · simp at h

/-- Evaluation of `parse_lsf_line` on a well-formed line: the dictionary
entry at the line's path (the existing one, or a fresh `SyncFile`) has the
named slot overwritten with the parsed size and timestamp. -/
theorem parse_lsf_line_eq (ty p ts sz : String)
    (hty : ty ∈ (["db_1", "db_2", "path_1", "path_2"] : List String))
    (d : Dict) (l : String) (hr : rsplit2 l = [p, ts, sz])
    (n : Int) (hn : pyInt sz = some n) (t : DateTime)
    (ht : strptimeRclone ts = some t) :
    parse_lsf_line ty d l = .ok (dictSet d p
      ((match dictFind d p with
        | some o => o
        | none => ({ path := p } : SyncFile)).slotSet ty ⟨some n, t⟩)) := by
  unfold parse_lsf_line
  rw [hr]
  simp [SyncFile.add_properties, hty, hn, ht, Except.map]

/-- The loop of `parse_lsf` over well-formed lines into a dictionary with
unique keys: it succeeds; keys stay unique; the final keys are the old ones
plus the listed paths; every listed path's entry has the named slot's size
set; entries present before keep their other listing slot; and entries for
paths not listed are untouched. -/
theorem parseLines_good (ty : String) (hty : ty = "path_1" ∨ ty = "path_2") :
    ∀ (ls : List String) (d : Dict),
      (∀ l ∈ ls, goodLine l = true) → (dictKeys d).Nodup →
      ∃ d2, parseLines ty ls d = .ok d2 ∧ (dictKeys d2).Nodup
        ∧ (∀ q, q ∈ dictKeys d2 ↔ q ∈ dictKeys d ∨ q ∈ ls.map linePath)
        ∧ (∀ q, q ∈ ls.map linePath →
            ∃ f, dictFind d2 q = some f ∧ (f.slotGet ty).size.isSome = true)
        ∧ (∀ q f0, dictFind d q = some f0 →
            ∃ f1, dictFind d2 q = some f1 ∧
              ∀ ty2, (ty2 = "path_1" ∨ ty2 = "path_2") → ty2 ≠ ty →
                f1.slotGet ty2 = f0.slotGet ty2)
        ∧ (∀ q f0, dictFind d q = some f0 → q ∉ ls.map linePath →
            dictFind d2 q = some f0) := by
  intro ls
  induction ls with
  | nil =>
    intro d hg hnd
    exact ⟨d, rfl, hnd, by simp, by simp,
      fun q f0 h0 => ⟨f0, h0, fun _ _ _ => rfl⟩, fun q f0 h0 _ => h0⟩
  | cons l ls ih =>
    intro d hg hnd
    obtain ⟨p, ts, sz, n, t, hr, hn, ht, hlp⟩ := goodLine_elim l (hg l (by simp))
    have htyIn : ty ∈ (["db_1", "db_2", "path_1", "path_2"] : List String) := by
      rcases hty with rfl | rfl <;> simp
    set base := (match dictFind d p with
      | some o => o
      | none => ({ path := p } : SyncFile)) with hbase
    set fnew := base.slotSet ty ⟨some n, t⟩ with hfnew
    have hline : parse_lsf_line ty d l = .ok (dictSet d p fnew) :=
      parse_lsf_line_eq ty p ts sz htyIn d l hr n hn t ht
    have hnd1 : (dictKeys (dictSet d p fnew)).Nodup :=
      nodup_dictKeys_dictSet d p fnew hnd
    obtain ⟨d2, hp2, hnd2, hk2, hs2, hpres2, hun2⟩ :=
      ih (dictSet d p fnew) (fun x hx => hg x (by simp [hx])) hnd1
    refine ⟨d2, ?_, hnd2, ?_, ?_, ?_, ?_⟩
    · simp [parseLines, hline, hp2]
    · intro q
      rw [hk2 q, mem_dictKeys_dictSet]
      simp [hlp]
      tauto
    · intro q hq
      by_cases hqls : q ∈ ls.map linePath
      · exact hs2 q hqls
      · have hqp : q = p := by
          rw [show (l :: ls).map linePath = p :: ls.map linePath by
            rw [List.map_cons, hlp]] at hq
          rcases List.mem_cons.mp hq with hqp | hqp
          · exact hqp
          · exact absurd hqp hqls
        subst hqp
        have hfind1 : dictFind (dictSet d q fnew) q = some fnew :=
          dictFind_dictSet_self d q fnew
        have hkeep := hun2 q fnew hfind1 hqls
        refine ⟨fnew, hkeep, ?_⟩
        rw [hfnew, slotGet_slotSet_self base _ ty hty]
        rfl
    · intro q f0 h0
      by_cases hqp : q = p
      · subst hqp
        have hb : base = f0 := by rw [hbase, h0]
        have hfind1 : dictFind (dictSet d q fnew) q = some fnew :=
          dictFind_dictSet_self d q fnew
        obtain ⟨f1, hf1, hpr⟩ := hpres2 q fnew hfind1
        refine ⟨f1, hf1, fun ty2 hty2 hne => ?_⟩
        rw [hpr ty2 hty2 hne, hfnew, slotGet_slotSet_other base _ ty ty2 hty hty2 hne, hb]
      · obtain ⟨f1, hf1, hpr⟩ := hpres2 q f0
          (by rw [dictFind_dictSet_ne d p q fnew hqp]; exact h0)
        exact ⟨f1, hf1, hpr⟩
    · intro q f0 h0 hq
      have hqp : q ≠ p := fun e => hq (by simp [hlp, e])
      have hqls : q ∉ ls.map linePath := fun hmem => hq (by simp [hmem])
      exact hun2 q f0
        (by rw [dictFind_dictSet_ne d p q fnew hqp]; exact h0) hqls

/-- Claim C7: after parsing both sides' listings (side 1 into the fresh
dictionary, then side 2), the files map has unique keys, holds an entry
exactly for the paths appearing in either listing output, and a path listed
on a side has that side's slot populated (so a path in both listings gets a
single entry carrying both sides' attributes).  Stated for well-formed
listing outputs — on malformed output (including empty stdout) the parse
raises instead of producing a map. -/
theorem claim_C7_one_entry_per_listed_path (out1 out2 : String)
    (h1 : ∀ l ∈ pyLines out1, goodLine l = true)
    (h2 : ∀ l ∈ pyLines out2, goodLine l = true) :
    ∃ d, parseBoth out1 out2 = .ok d ∧ (dictKeys d).Nodup
      ∧ (∀ q, q ∈ dictKeys d ↔ q ∈ lsfPaths out1 ∨ q ∈ lsfPaths out2)
      ∧ (∀ q, q ∈ lsfPaths out1 →
          ∃ f, dictFind d q = some f ∧ f.path_1.size.isSome = true)
      ∧ (∀ q, q ∈ lsfPaths out2 →
          ∃ f, dictFind d q = some f ∧ f.path_2.size.isSome = true) := by
  obtain ⟨d1, hp1, hnd1, hk1, hs1, _, _⟩ :=
    parseLines_good "path_1" (Or.inl rfl) (pyLines out1) [] h1 (by simp [dictKeys])
  obtain ⟨d2, hp2, hnd2, hk2, hs2, hpres, _⟩ :=
    parseLines_good "path_2" (Or.inr rfl) (pyLines out2) d1 h2 hnd1
  refine ⟨d2, ?_, hnd2, ?_, ?_, ?_⟩
  · unfold parseBoth parse_lsf
    rw [hp1]
    exact hp2
  · intro q
    rw [hk2 q, hk1 q]
    simp [lsfPaths, dictKeys]
  · intro q hq
    obtain ⟨f, hf, hsz⟩ := hs1 q hq
    obtain ⟨f1, hf1, hpr⟩ := hpres q f hf
    refine ⟨f1, hf1, ?_⟩
    have hone := hpr "path_1" (Or.inl rfl) (by decide)
    have e1 : f1.slotGet "path_1" = f1.path_1 := rfl
    have e2 : f.slotGet "path_1" = f.path_1 := rfl
    rw [e1, e2] at hone
    rw [hone]
    exact hsz
  · intro q hq
    obtain ⟨f, hf, hsz⟩ := hs2 q hq
    exact ⟨f, hf, hsz⟩

/-- Witness for C7: two concrete listings sharing the path `a`, with `b`
only on side 2; stated for the map the parse produces. -/
theorem claim_C7_one_entry_per_listed_path_witness :
    ∃ d, parseBoth "a;2020-01-02 03:04:05;10"
        "a;2020-01-02 03:04:06;11\nb;2021-01-01 00:00:00;7" = .ok d
      ∧ (dictKeys d).Nodup
      ∧ (∀ q, q ∈ dictKeys d ↔
          q ∈ lsfPaths "a;2020-01-02 03:04:05;10" ∨
          q ∈ lsfPaths "a;2020-01-02 03:04:06;11\nb;2021-01-01 00:00:00;7")
      ∧ (∀ q, q ∈ lsfPaths "a;2020-01-02 03:04:05;10" →
          ∃ f, dictFind d q = some f ∧ f.path_1.size.isSome = true)
      ∧ (∀ q, q ∈ lsfPaths "a;2020-01-02 03:04:06;11\nb;2021-01-01 00:00:00;7" →
          ∃ f, dictFind d q = some f ∧ f.path_2.size.isSome = true) :=
  claim_C7_one_entry_per_listed_path _ _ (by decide) (by decide)

end RcloneSync
